import Mathlib

/-!
# Verification of the seat-booking sketch (Pre-Take0ff-Tasks)

Shallow embedding of the code of the repository:

* `BookingService.bookSeat` (src/unnamed/part_000 and part_001): a SQL
  transaction that reads `system_status.available_seats` under `FOR UPDATE`,
  throws `Error("Sold Out")` when `available_seats <= 0`, then queries
  `bookings` for the user and throws `Error("Already Booked")` when a row
  exists, and otherwise decrements the counter, inserts a booking row and
  returns `"Booking Successful"`.  The transaction is serialized by the row
  lock, so it is embedded as a pure state transformer on the database state;
  a thrown error rolls the transaction back, leaving the state unchanged.
  Thrown errors are embedded as `Except.error`, ordinary returns as
  `Except.ok`.

* `broadcastAvailability` (the SSE server sketch): builds the JSON object
  `{ type: "availability", available: count }`, embedded as an ordered
  key/value list.

* `Thermostat` / `Heater` / `Cooler` (src/thermostat.ts).

* The Allocation Engine operations of the spec that have no code in the
  repository (`release`, sequence numbers) are modelled from the spec and
  are marked as such.
-/

deriving instance DecidableEq for Except

/-- The database state visible to `BookingService.bookSeat`:
`system_status.available_seats` (a SQL `INT`) and the `bookings` table,
represented by its list of `user_id` values in insertion order. -/
structure DBState where
  available_seats : Int
  bookings : List String
deriving DecidableEq

/-- `BookingService.bookSeat` (src/unnamed/part_001 lines 116-142, identical
logic in part_000 lines 142-167).  Checks `available_seats <= 0` first
(throw `"Sold Out"`), then whether a `bookings` row with this `user_id`
exists (throw `"Already Booked"`), else decrements the counter and inserts
the row.  A throw aborts the transaction, so the state is returned
unchanged in the error cases. -/
def bookSeat (db : DBState) (userId : String) : Except String String × DBState :=
  if db.available_seats ≤ 0 then
    (Except.error "Sold Out", db)
  else
    let alreadyBooked := db.bookings.filter (fun b => b == userId)
    if alreadyBooked.length > 0 then
      (Except.error "Already Booked", db)
    else
      (Except.ok "Booking Successful",
       { available_seats := db.available_seats - 1,
         bookings := db.bookings ++ [userId] })

/-- The initial database row `INSERT INTO system_status (id, available_seats)
VALUES (1, 100)` with an empty `bookings` table. -/
def initialDB : DBState :=
  { available_seats := 100, bookings := [] }

/-- Sequential execution of `bookSeat` calls: the backend serializes the
transactions through the `FOR UPDATE` row lock, so a batch of calls is a
fold over the database state, collecting the result of each call. -/
def runBookAll (db : DBState) : List String → List (Except String String) × DBState
  | [] => ([], db)
  | u :: us =>
    let r := bookSeat db u
    let rest := runBookAll r.2 us
    (r.1 :: rest.1, rest.2)

/-- Outcomes of the optional `release` operation of the spec. -/
inductive RelOutcome where
  | RELEASED
  | NOT_FOUND
deriving DecidableEq

/-- Modelled from the spec: the code of the repository has no release operation;
§4.2 specifies `release(requesterId)`: if `requesterId` is not present →
outcome `NOT_FOUND`; else remove the record and increment `remaining`,
outcome `RELEASED`.  Embedded on the same database state as `bookSeat`. -/
def releaseSeat (db : DBState) (userId : String) : RelOutcome × DBState :=
  if userId ∈ db.bookings then
    (RelOutcome.RELEASED,
     { available_seats := db.available_seats + 1,
       bookings := db.bookings.erase userId })
  else
    (RelOutcome.NOT_FOUND, db)

/-- An allocate/release request against the shared pool. -/
inductive Op where
  | alloc (userId : String)
  | rel (userId : String)

/-- Serialized execution of a sequence of allocate/release operations. -/
def runOps (db : DBState) : List Op → DBState
  | [] => db
  | Op.alloc u :: ops => runOps (bookSeat db u).2 ops
  | Op.rel u :: ops => runOps (releaseSeat db u).2 ops

/-- A pool freshly created with capacity `n`: `remaining = capacity` and no
bookings (the code initializes `available_seats` to 100; the capacity is
kept generic here). -/
def initDB (n : Nat) : DBState :=
  { available_seats := (n : Int), bookings := [] }

/-- The §3 invariant set of the spec for a pool of capacity `n`:
`0 ≤ remaining ≤ capacity`, `remaining = capacity - |allocations|`, and
each requester appears at most once. -/
def PoolInv (n : Nat) (db : DBState) : Prop :=
  0 ≤ db.available_seats ∧ db.available_seats ≤ (n : Int) ∧
  db.available_seats = (n : Int) - db.bookings.length ∧ db.bookings.Nodup

/-- Recognizes the result of a committed booking (the ordinary return value
`"Booking Successful"`). -/
def isConfirmed (r : Except String String) : Bool :=
  match r with
  | Except.ok m => m == "Booking Successful"
  | Except.error _ => false

/-- Recognizes a rejection for exhausted capacity (thrown `"Sold Out"`). -/
def isSoldOut (r : Except String String) : Bool :=
  match r with
  | Except.error m => m == "Sold Out"
  | Except.ok _ => false

/-- 150 pairwise-distinct user ids (the id of index `k` is the string of `k`
letters `a`), used to instantiate the capacity-exactness property. -/
def witnessIds : List String :=
  (List.range 150).map (fun k => String.mk (List.replicate k 'a'))

/-- A JSON scalar, as produced by `JSON.stringify` on the broadcast
payload. -/
inductive JVal where
  | str (s : String)
  | int (n : Int)
deriving DecidableEq

/-- `broadcastAvailability` (src/unnamed/part_001 lines 176-180, part_000
lines 238-242): builds the payload
`JSON.stringify({ type: "availability", available: count })`, embedded as
the ordered key/value list of the object literal. -/
def broadcastAvailability (count : Int) : List (String × JVal) :=
  [("type", JVal.str "availability"), ("available", JVal.int count)]

/-- Outcomes of the Allocation Engine of the spec (§4.2, §7). -/
inductive Outcome where
  | CONFIRMED (sequence_number : Nat)
  | SOLD_OUT
  | ALREADY_ALLOCATED
  | RELEASED
  | NOT_FOUND
  | INVALID_REQUEST
deriving DecidableEq

/-- Modelled from the spec: the §3 allocation record — the code stores only
a `bookings` row per user and has no sequence numbers.  `allocated_at` is
the logical timestamp taken from the commit counter. -/
structure AllocationRecord where
  requester_id : String
  allocated_at : Nat
  sequence_number : Nat
deriving DecidableEq

/-- Modelled from the spec: the §3 Pool — fixed capacity, remaining count,
the set of confirmed allocations, and the strictly increasing commit
counter from which sequence numbers are assigned (never reused, even after
a release). -/
structure Pool where
  capacity : Nat
  remaining : Nat
  allocations : List AllocationRecord
  nextSeq : Nat
deriving DecidableEq

/-- Whether `requesterId` currently holds an allocation in the pool. -/
def Pool.isAllocated (p : Pool) (requesterId : String) : Bool :=
  p.allocations.any (fun r => r.requester_id == requesterId)

/-- Modelled from the spec: §4.2 `allocate` — reject an empty requester id
before touching state, then (decision order, first match wins) duplicate →
`ALREADY_ALLOCATED`, exhausted capacity → `SOLD_OUT`, else commit:
decrement `remaining`, insert the record with the next sequence number,
outcome `CONFIRMED` carrying it. -/
def Pool.allocate (p : Pool) (requesterId : String) : Outcome × Pool :=
  if requesterId = "" then
    (Outcome.INVALID_REQUEST, p)
  else if p.isAllocated requesterId then
    (Outcome.ALREADY_ALLOCATED, p)
  else if p.remaining = 0 then
    (Outcome.SOLD_OUT, p)
  else
    (Outcome.CONFIRMED p.nextSeq,
     { p with
         remaining := p.remaining - 1,
         allocations := p.allocations ++ [⟨requesterId, p.nextSeq, p.nextSeq⟩],
         nextSeq := p.nextSeq + 1 })

/-- Modelled from the spec: §4.2 `release` — requester not present →
`NOT_FOUND`; else remove the record and increment `remaining`, outcome
`RELEASED`. -/
def Pool.release (p : Pool) (requesterId : String) : Outcome × Pool :=
  if p.isAllocated requesterId then
    (Outcome.RELEASED,
     { p with
         remaining := p.remaining + 1,
         allocations := p.allocations.filter (fun r => r.requester_id != requesterId) })
  else
    (Outcome.NOT_FOUND, p)

/-- A heater or cooler: `Device` of src/thermostat.ts, a single `_isOn`
flag with guarded `on`/`off` methods (`Heater` and `Cooler` implement it
identically up to logging). -/
structure Device where
  isOn : Bool
deriving DecidableEq

/-- `Device.on`: sets `_isOn` when it was off (the guard only avoids
re-logging). -/
def Device.on (d : Device) : Device :=
  if !d.isOn then { isOn := true } else d

/-- `Device.off`: clears `_isOn` when it was on. -/
def Device.off (d : Device) : Device :=
  if d.isOn then { isOn := false } else d

/-- The `Thermostat` state (src/thermostat.ts lines 59-117): configuration,
temperatures and the two attached devices.  TypeScript `number` is embedded
as `ℚ`. -/
structure Thermostat where
  minTemp : ℚ
  maxTemp : ℚ
  hysteresis : ℚ
  currentTemp : ℚ
  targetTemp : ℚ
  heater : Device
  cooler : Device

/-- `Thermostat.update` (src/thermostat.ts lines 93-107): records the new
current temperature, then drives the devices — below the hysteresis band
cooler off / heater on, above it heater off / cooler on, inside it both
off. -/
def Thermostat.update (t : Thermostat) (currentTemp : ℚ) : Thermostat :=
  let t1 := { t with currentTemp := currentTemp }
  if t1.currentTemp < t1.targetTemp - t1.hysteresis then
    { t1 with cooler := t1.cooler.off, heater := t1.heater.on }
  else if t1.currentTemp > t1.targetTemp + t1.hysteresis then
    { t1 with heater := t1.heater.off, cooler := t1.cooler.on }
  else
    { t1 with heater := t1.heater.off, cooler := t1.cooler.off }

/-- `setTargetTemperature` (src/thermostat.ts lines 88-91): clamps the
requested target into `[minTemp, maxTemp]`. -/
def Thermostat.setTargetTemperature (t : Thermostat) (value : ℚ) : Thermostat :=
  { t with targetTemp := max t.minTemp (min t.maxTemp value) }

lemma filter_eq_length_pos_iff_mem (l : List String) (u : String) :
    0 < (l.filter (fun b => b == u)).length ↔ u ∈ l := by
  induction l with
  | nil => simp
  | cons a as ih =>
    by_cases h : a = u
    · subst h; simp [List.filter_cons]
    · simp [List.filter_cons, h, ih, Ne.symm h]

lemma bookSeat_soldOut (db : DBState) (u : String) (h : db.available_seats ≤ 0) :
    bookSeat db u = (Except.error "Sold Out", db) := by
  simp [bookSeat, h]

lemma bookSeat_alreadyBooked (db : DBState) (u : String)
    (h : 0 < db.available_seats) (hm : u ∈ db.bookings) :
    bookSeat db u = (Except.error "Already Booked", db) := by
  have hlen : 0 < (db.bookings.filter (fun b => b == u)).length :=
    (filter_eq_length_pos_iff_mem _ _).2 hm
  simp [bookSeat, not_le.2 h, hlen]

lemma bookSeat_success (db : DBState) (u : String)
    (h : 0 < db.available_seats) (hm : u ∉ db.bookings) :
    bookSeat db u =
      (Except.ok "Booking Successful",
       { available_seats := db.available_seats - 1,
         bookings := db.bookings ++ [u] }) := by
  have hlen : ¬ 0 < (db.bookings.filter (fun b => b == u)).length := by
    rw [filter_eq_length_pos_iff_mem]; exact hm
  simp [bookSeat, not_le.2 h, hlen]

lemma bookSeat_preserves_inv (n : Nat) (db : DBState) (u : String)
    (h : PoolInv n db) : PoolInv n (bookSeat db u).2 := by
  obtain ⟨h0, h1, h2, h3⟩ := h
  by_cases hle : db.available_seats ≤ 0
  · rw [bookSeat_soldOut db u hle]; exact ⟨h0, h1, h2, h3⟩
  · by_cases hm : u ∈ db.bookings
    · rw [bookSeat_alreadyBooked db u (not_le.1 hle) hm]; exact ⟨h0, h1, h2, h3⟩
    · rw [bookSeat_success db u (not_le.1 hle) hm]
      refine ⟨by simp; omega, by simp; omega, ?_, ?_⟩
      · simp only [List.length_append, List.length_cons, List.length_nil]
        push_cast
        omega
      · simpa [List.nodup_append, h3] using hm

lemma releaseSeat_preserves_inv (n : Nat) (db : DBState) (u : String)
    (h : PoolInv n db) : PoolInv n (releaseSeat db u).2 := by
  obtain ⟨h0, h1, h2, h3⟩ := h
  by_cases hm : u ∈ db.bookings
  · have hlen : 0 < db.bookings.length := List.length_pos_of_mem hm
    have hel : (db.bookings.erase u).length = db.bookings.length - 1 :=
      List.length_erase_of_mem hm
    simp only [releaseSeat, hm, if_true]
    refine ⟨by simp; omega, by simp; omega, ?_, h3.erase u⟩
    simp only [hel]
    push_cast [hlen]
    omega
  · simp only [releaseSeat, hm, if_false]
    exact ⟨h0, h1, h2, h3⟩

lemma runOps_preserves_inv (n : Nat) (ops : List Op) :
    ∀ db : DBState, PoolInv n db → PoolInv n (runOps db ops) := by
  induction ops with
  | nil => intro db h; exact h
  | cons op ops ih =>
    intro db h
    cases op with
    | alloc u => exact ih _ (bookSeat_preserves_inv n db u h)
    | rel u => exact ih _ (releaseSeat_preserves_inv n db u h)

/-- C2: after any sequence of allocate/release operations on a pool created
with positive capacity `n`, the invariants hold: `0 ≤ remaining ≤ n`,
`remaining = n - |bookings|`, and no requester is booked twice.  (Allocate
is `bookSeat` from the code; release is modelled from the spec, the code
having none.)  Since the operation list is arbitrary, the invariant holds
after every prefix, i.e. after every single operation. -/
theorem invariants_hold (n : Nat) (hn : 0 < n) (ops : List Op) :
    PoolInv n (runOps (initDB n) ops) := by
  have hinit : PoolInv n (initDB n) := by
    refine ⟨by simp [initDB], by simp [initDB], by simp [initDB], List.nodup_nil⟩
  exact runOps_preserves_inv n ops _ hinit

/-- C2 witness: the invariants after a concrete mixed operation sequence on
a pool of capacity 2 (including duplicate allocations and a release of an
absent requester). -/
theorem invariants_hold_witness :
    0 < 2 ∧
    PoolInv 2 (runOps (initDB 2)
      [Op.alloc "a", Op.alloc "a", Op.rel "a", Op.rel "a", Op.alloc "b"]) :=
  ⟨by decide,
   invariants_hold 2 (by decide)
     [Op.alloc "a", Op.alloc "a", Op.rel "a", Op.rel "a", Op.alloc "b"]⟩

lemma bookSeat_seats_le (db : DBState) (u : String) :
    (bookSeat db u).2.available_seats ≤ db.available_seats := by
  by_cases hle : db.available_seats ≤ 0
  · rw [bookSeat_soldOut db u hle]
  · by_cases hm : u ∈ db.bookings
    · rw [bookSeat_alreadyBooked db u (not_le.1 hle) hm]
    · rw [bookSeat_success db u (not_le.1 hle) hm]
      show db.available_seats - 1 ≤ db.available_seats
      omega

lemma runBookAll_seats_le (us : List String) :
    ∀ db : DBState, (runBookAll db us).2.available_seats ≤ db.available_seats := by
  induction us with
  | nil => intro db; exact le_refl _
  | cons u us ih =>
    intro db
    exact le_trans (ih (bookSeat db u).2) (bookSeat_seats_le db u)

/-- C9: `bookSeat` is the only mutating operation and never increases the
seat counter: every call either commits (returns `"Booking Successful"`
and decrements `available_seats` by exactly one) or throws (`"Sold Out"`
or `"Already Booked"`) and leaves the whole state unchanged; consequently
over any sequence of calls the counter is non-increasing — no release or
cancellation path exists to undo a confirmed booking. -/
theorem seats_never_increase :
    (∀ (db : DBState) (u : String),
      ((bookSeat db u).1 = Except.ok "Booking Successful" ∧
       (bookSeat db u).2.available_seats = db.available_seats - 1) ∨
      (((bookSeat db u).1 = Except.error "Sold Out" ∨
        (bookSeat db u).1 = Except.error "Already Booked") ∧
       (bookSeat db u).2 = db)) ∧
    (∀ (us : List String) (db : DBState),
      (runBookAll db us).2.available_seats ≤ db.available_seats) := by
  constructor
  · intro db u
    by_cases hle : db.available_seats ≤ 0
    · rw [bookSeat_soldOut db u hle]
      exact Or.inr ⟨Or.inl rfl, rfl⟩
    · by_cases hm : u ∈ db.bookings
      · rw [bookSeat_alreadyBooked db u (not_le.1 hle) hm]
        exact Or.inr ⟨Or.inr rfl, rfl⟩
      · rw [bookSeat_success db u (not_le.1 hle) hm]
        exact Or.inl ⟨rfl, rfl⟩
  · intro us db
    exact runBookAll_seats_le us db

/-- C1: In the code the capacity check comes first: when `available_seats = 0`
and the requester is already booked, `bookSeat` throws `"Sold Out"`, not
`"Already Booked"` — refuting the claim that the duplicate check precedes
the capacity check. -/
theorem bookSeat_soldOut_overrides_duplicate_cex :
    (bookSeat { available_seats := 0, bookings := ["u1"] } "u1").1
        = Except.error "Sold Out" ∧
    (bookSeat { available_seats := 0, bookings := ["u1"] } "u1").1
        ≠ Except.error "Already Booked" := by
  constructor
  · rfl
  · decide

/-- C1 (amended): `bookSeat` checks capacity before the duplicate
condition: the outcome is `"Sold Out"` exactly when `available_seats ≤ 0`
(regardless of whether the requester is already booked), and
`"Already Booked"` exactly when `available_seats > 0` and the requester
already has a booking. -/
theorem bookSeat_decision_order (db : DBState) (u : String) :
    ((bookSeat db u).1 = Except.error "Sold Out" ↔ db.available_seats ≤ 0) ∧
    ((bookSeat db u).1 = Except.error "Already Booked" ↔
      0 < db.available_seats ∧ u ∈ db.bookings) := by
  by_cases h : db.available_seats ≤ 0
  · rw [bookSeat_soldOut db u h]
    simp [h, not_lt.2 h]
  · have hpos : 0 < db.available_seats := not_le.1 h
    by_cases hm : u ∈ db.bookings
    · rw [bookSeat_alreadyBooked db u hpos hm]
      simp [h, hpos, hm]
    · rw [bookSeat_success db u hpos hm]
      simp [h, hm]

/-- C3: with exactly one seat left, the second of two sequential `bookSeat`
calls by the same fresh user throws `"Sold Out"`, not `"Already Booked"`,
because the capacity check runs first — refuting the claim for
`remaining = 1`. -/
theorem double_book_one_seat_cex :
    (bookSeat (bookSeat { available_seats := 1, bookings := [] } "u1").2 "u1").1
        = Except.error "Sold Out" ∧
    (bookSeat (bookSeat { available_seats := 1, bookings := [] } "u1").2 "u1").1
        ≠ Except.error "Already Booked" ∧
    (bookSeat (bookSeat { available_seats := 1, bookings := [] } "u1").2 "u1").2.available_seats
        = 0 := by
  refine ⟨rfl, by decide, rfl⟩

/-- C3 (amended): for a fresh user and `available_seats ≥ 1`, the first
`bookSeat` call returns `"Booking Successful"` and across the two calls the
counter drops by exactly 1 (the second call never mutates state); the
second call yields `"Already Booked"` when at least 2 seats were available,
but `"Sold Out"` when exactly 1 was, since capacity is checked first. -/
theorem double_book_same_user (db : DBState) (u : String)
    (h1 : 1 ≤ db.available_seats) (h2 : u ∉ db.bookings) :
    (bookSeat db u).1 = Except.ok "Booking Successful" ∧
    (bookSeat (bookSeat db u).2 u).2.available_seats = db.available_seats - 1 ∧
    (2 ≤ db.available_seats →
      (bookSeat (bookSeat db u).2 u).1 = Except.error "Already Booked") ∧
    (db.available_seats = 1 →
      (bookSeat (bookSeat db u).2 u).1 = Except.error "Sold Out") := by
  have hpos : 0 < db.available_seats := h1
  rw [bookSeat_success db u hpos h2]
  refine ⟨rfl, ?_, ?_, ?_⟩
  · by_cases hge : 2 ≤ db.available_seats
    · rw [bookSeat_alreadyBooked _ u (by simp; omega) (by simp)]
    · have : db.available_seats = 1 := by omega
      rw [bookSeat_soldOut _ u (by simp [this])]
  · intro hge
    rw [bookSeat_alreadyBooked _ u (by simp; omega) (by simp)]
  · intro heq
    rw [bookSeat_soldOut _ u (by simp [heq])]

/-- C3 witness: a concrete instance of `double_book_same_user` with two
seats available. -/
theorem double_book_same_user_witness :
    (1 : Int) ≤ 2 ∧ "u1" ∉ ([] : List String) ∧
    ((bookSeat { available_seats := 2, bookings := [] } "u1").1
        = Except.ok "Booking Successful" ∧
     (bookSeat (bookSeat { available_seats := 2, bookings := [] } "u1").2 "u1").2.available_seats
        = 2 - 1 ∧
     ((2 : Int) ≤ 2 →
       (bookSeat (bookSeat { available_seats := 2, bookings := [] } "u1").2 "u1").1
          = Except.error "Already Booked") ∧
     ((2 : Int) = 1 →
       (bookSeat (bookSeat { available_seats := 2, bookings := [] } "u1").2 "u1").1
          = Except.error "Sold Out")) :=
  ⟨by decide, by decide,
   double_book_same_user { available_seats := 2, bookings := [] } "u1"
     (by decide) (by decide)⟩

/-- C5: the business outcome `"Sold Out"` is delivered by throwing
`Error("Sold Out")` inside the transaction (embedded as `Except.error`),
not as an ordinary return value — refuting the claim that business
outcomes are never exceptional control flow. -/
theorem soldOut_is_thrown_cex :
    (bookSeat { available_seats := 0, bookings := [] } "u1").1
        = Except.error "Sold Out" ∧
    (bookSeat { available_seats := 0, bookings := [] } "u1").1
        ≠ Except.ok "Sold Out" := by
  exact ⟨rfl, by decide⟩

/-- C5 (amended): `bookSeat` delivers `"Sold Out"` and `"Already Booked"`
only by throwing (`Except.error`); the only ordinary return value is
`"Booking Successful"`, and a business failure is never an ordinary
return value.  No `release`/`NOT_FOUND` path exists in the code. -/
theorem business_outcomes_thrown (db : DBState) (u : String) :
    ((bookSeat db u).1 = Except.error "Sold Out" ∨
     (bookSeat db u).1 = Except.error "Already Booked" ∨
     (bookSeat db u).1 = Except.ok "Booking Successful") ∧
    ¬ ∃ m, (bookSeat db u).1 = Except.ok m ∧ (m = "Sold Out" ∨ m = "Already Booked") := by
  by_cases h : db.available_seats ≤ 0
  · rw [bookSeat_soldOut db u h]; simp
  · by_cases hm : u ∈ db.bookings
    · rw [bookSeat_alreadyBooked db u (not_le.1 h) hm]; simp
    · rw [bookSeat_success db u (not_le.1 h) hm]
      refine ⟨Or.inr (Or.inr rfl), ?_⟩
      rintro ⟨m, hm1, hm2⟩
      simp only [Except.ok.injEq] at hm1
      rcases hm2 with h2 | h2 <;> rw [h2] at hm1 <;> exact absurd hm1 (by decide)

/-- C6: `bookSeat` performs no requester-id validation: the empty-string
user id on the initial database is accepted, the counter is decremented
and a record inserted — refuting the claim that the empty id is rejected
with `INVALID_REQUEST` before any state access. -/
theorem empty_userId_accepted_cex :
    bookSeat initialDB "" =
      (Except.ok "Booking Successful",
       { available_seats := 99, bookings := [""] }) := by
  rfl

/-- C6 (amended): no input validation exists in `bookSeat`; the empty
requester id is processed exactly like any other id: whenever seats remain
and `""` has no booking, the call commits — decrementing the counter and
inserting a record for `""`. -/
theorem empty_userId_not_validated (db : DBState)
    (h : 0 < db.available_seats) (hm : "" ∉ db.bookings) :
    bookSeat db "" =
      (Except.ok "Booking Successful",
       { available_seats := db.available_seats - 1,
         bookings := db.bookings ++ [""] }) :=
  bookSeat_success db "" h hm

/-- C6 witness: `empty_userId_not_validated` at a concrete non-initial
state. -/
theorem empty_userId_not_validated_witness :
    (0 : Int) < 5 ∧ "" ∉ ["x"] ∧
    bookSeat { available_seats := 5, bookings := ["x"] } "" =
      (Except.ok "Booking Successful",
       { available_seats := 5 - 1, bookings := ["x"] ++ [""] }) :=
  ⟨by decide, by decide,
   empty_userId_not_validated { available_seats := 5, bookings := ["x"] }
     (by decide) (by decide)⟩

lemma runBookAll_counts (us : List String) :
    ∀ (db : DBState) (r : Nat),
      db.available_seats = (r : Int) → us.Nodup →
      (∀ u ∈ us, u ∉ db.bookings) →
      (runBookAll db us).1.countP isConfirmed = min r us.length ∧
      (runBookAll db us).1.countP isSoldOut = us.length - min r us.length ∧
      (runBookAll db us).2.available_seats = (r : Int) - (min r us.length : Nat) := by
  induction us with
  | nil =>
    intro db r hr _ _
    simp [runBookAll, hr]
  | cons u us ih =>
    intro db r hr hnd hfresh
    rcases List.nodup_cons.1 hnd with ⟨hu, hnd2⟩
    cases r with
    | zero =>
      have hle : db.available_seats ≤ 0 := le_of_eq (by exact_mod_cast hr)
      have hb := bookSeat_soldOut db u hle
      obtain ⟨hc, hs, hf⟩ :=
        ih db 0 hr hnd2 (fun v hv => hfresh v (List.mem_cons_of_mem u hv))
      refine ⟨?_, ?_, ?_⟩
      · simpa [runBookAll, hb, List.countP_cons, isConfirmed] using hc
      · have : (runBookAll db us).1.countP isSoldOut + 1 = us.length + 1 - min 0 (us.length + 1) := by
          simp at hs ⊢
          omega
        simpa [runBookAll, hb, List.countP_cons, isSoldOut] using this
      · simpa [runBookAll, hb] using hf
    | succ r' =>
      have hpos : 0 < db.available_seats := by
        rw [hr]; exact_mod_cast Nat.succ_pos r'
      have hmem : u ∉ db.bookings := hfresh u (List.mem_cons_self u us)
      have hb := bookSeat_success db u hpos hmem
      have hr2 : (DBState.mk (db.available_seats - 1) (db.bookings ++ [u])).available_seats
          = (r' : Int) := by
        simp
        rw [hr]
        push_cast
        omega
      have hfresh2 : ∀ v ∈ us,
          v ∉ (DBState.mk (db.available_seats - 1) (db.bookings ++ [u])).bookings := by
        intro v hv
        simp [List.mem_append]
        push_neg
        refine ⟨hfresh v (List.mem_cons_of_mem u hv), ?_⟩
        intro hvu
        exact hu (hvu ▸ hv)
      obtain ⟨hc, hs, hf⟩ := ih _ r' hr2 hnd2 hfresh2
      refine ⟨?_, ?_, ?_⟩
      · have : (runBookAll (DBState.mk (db.available_seats - 1) (db.bookings ++ [u])) us).1.countP
            isConfirmed + 1 = min (r' + 1) (us.length + 1) := by
          rw [hc, Nat.succ_min_succ]
        simpa [runBookAll, hb, List.countP_cons, isConfirmed] using this
      · have : (runBookAll (DBState.mk (db.available_seats - 1) (db.bookings ++ [u])) us).1.countP
            isSoldOut = us.length + 1 - min (r' + 1) (us.length + 1) := by
          rw [hs, Nat.succ_min_succ]
          omega
        simpa [runBookAll, hb, List.countP_cons, isSoldOut] using this
      · have : (runBookAll (DBState.mk (db.available_seats - 1) (db.bookings ++ [u])) us).2.available_seats
            = ((r' + 1 : Nat) : Int) - (min (r' + 1) (us.length + 1) : Nat) := by
          rw [hf, Nat.succ_min_succ]
          push_cast
          omega
        simpa [runBookAll, hb] using this

/-- C4: starting from the initial state of the code (100 seats, no bookings),
any sequence of 150 `bookSeat` calls with pairwise-distinct user ids
produces exactly 100 `"Booking Successful"` results and exactly 50
`"Sold Out"` rejections, and leaves `available_seats = 0`. -/
theorem capacity_exactness (uids : List String)
    (hlen : uids.length = 150) (hnd : uids.Nodup) :
    (runBookAll initialDB uids).1.countP isConfirmed = 100 ∧
    (runBookAll initialDB uids).1.countP isSoldOut = 50 ∧
    (runBookAll initialDB uids).2.available_seats = 0 := by
  have hfresh : ∀ u ∈ uids, u ∉ initialDB.bookings := by
    intro u _
    simp [initialDB]
  obtain ⟨hc, hs, hf⟩ :=
    runBookAll_counts uids initialDB 100 (by simp [initialDB]) hnd hfresh
  rw [hlen] at hc hs hf
  refine ⟨by simpa using hc, by simpa using hs, by simpa using hf⟩

lemma witnessIds_length : witnessIds.length = 150 := by
  simp [witnessIds]

lemma witnessIds_nodup : witnessIds.Nodup := by
  refine List.Nodup.map ?_ (List.nodup_range 150)
  intro a b h
  have hdata : List.replicate a 'a' = List.replicate b 'a' := congrArg String.data h
  simpa using congrArg List.length hdata

/-- C4 witness: `capacity_exactness` at a concrete list of 150 distinct
user ids. -/
theorem capacity_exactness_witness :
    witnessIds.length = 150 ∧ witnessIds.Nodup ∧
    ((runBookAll initialDB witnessIds).1.countP isConfirmed = 100 ∧
     (runBookAll initialDB witnessIds).1.countP isSoldOut = 50 ∧
     (runBookAll initialDB witnessIds).2.available_seats = 0) :=
  ⟨witnessIds_length, witnessIds_nodup,
   capacity_exactness witnessIds witnessIds_length witnessIds_nodup⟩

/-- C7: the payload built by `broadcastAvailability` has keys `type` and
`available` only — it carries no `sequence` field and no key named
`remaining` — refuting the claimed event form
`{type: "availability", remaining: int, sequence: int}`. -/
theorem broadcast_payload_cex :
    (broadcastAvailability 5).map Prod.fst = ["type", "available"] ∧
    "sequence" ∉ (broadcastAvailability 5).map Prod.fst ∧
    "remaining" ∉ (broadcastAvailability 5).map Prod.fst := by
  exact ⟨rfl, by decide, by decide⟩

/-- C7 (amended): for every count, the published capacity-changed event is
exactly `{type: "availability", available: count}` (the count under the key
`available`, not `remaining`), with no `sequence` field. -/
theorem broadcast_payload_shape (count : Int) :
    broadcastAvailability count =
      [("type", JVal.str "availability"), ("available", JVal.int count)] ∧
    "sequence" ∉ (broadcastAvailability count).map Prod.fst ∧
    "remaining" ∉ (broadcastAvailability count).map Prod.fst := by
  have hm : (broadcastAvailability count).map Prod.fst = ["type", "available"] := rfl
  refine ⟨rfl, ?_, ?_⟩ <;> rw [hm] <;> decide

lemma allocate_confirmed_iff (p : Pool) (u : String) (s : Nat) :
    (p.allocate u).1 = Outcome.CONFIRMED s ↔
      u ≠ "" ∧ p.isAllocated u = false ∧ p.remaining ≠ 0 ∧ s = p.nextSeq := by
  unfold Pool.allocate
  by_cases h1 : u = ""
  · simp [h1]
  · by_cases h2 : p.isAllocated u
    · simp [h1, h2]
    · by_cases h3 : p.remaining = 0
      · simp [h1, h2, h3]
      · simp [h1, h2, h3, eq_comm]

lemma allocate_confirmed_state (p : Pool) (u : String)
    (h1 : u ≠ "") (h2 : p.isAllocated u = false) (h3 : p.remaining ≠ 0) :
    (p.allocate u).2 =
      { p with
          remaining := p.remaining - 1,
          allocations := p.allocations ++ [⟨u, p.nextSeq, p.nextSeq⟩],
          nextSeq := p.nextSeq + 1 } := by
  unfold Pool.allocate
  simp [h1, h2, h3]

lemma notAllocated_filter_id (p : Pool) (u : String) (h : p.isAllocated u = false) :
    p.allocations.filter (fun r => r.requester_id != u) = p.allocations := by
  rw [List.filter_eq_self]
  intro r hr
  have := List.any_eq_false.1 h r hr
  simpa [bne] using this

/-- C8 (modelled from the spec: the code has no release operation and no
sequence numbers): whenever `allocate u` commits with `CONFIRMED s`, a
following `release u` yields `RELEASED` and restores `remaining` to its
pre-allocation value, and a further `allocate u` commits again with the
strictly larger sequence number `s + 1`; releasing a requester with no
current allocation yields `NOT_FOUND`. -/
theorem release_round_trip :
    (∀ (p : Pool) (u : String) (s : Nat),
      (p.allocate u).1 = Outcome.CONFIRMED s →
      ((p.allocate u).2.release u).1 = Outcome.RELEASED ∧
      ((p.allocate u).2.release u).2.remaining = p.remaining ∧
      (((p.allocate u).2.release u).2.allocate u).1 = Outcome.CONFIRMED (s + 1) ∧
      s < s + 1) ∧
    (∀ (q : Pool) (v : String), q.isAllocated v = false →
      (q.release v).1 = Outcome.NOT_FOUND) := by
  constructor
  · intro p u s h
    obtain ⟨h1, h2, h3, hseq⟩ := (allocate_confirmed_iff p u s).1 h
    have hstate := allocate_confirmed_state p u h1 h2 h3
    have halloc2 : (p.allocate u).2.isAllocated u = true := by
      rw [hstate]
      simp [Pool.isAllocated]
    have hrel : ((p.allocate u).2.release u).2 =
        { p with
            remaining := p.remaining,
            allocations := p.allocations,
            nextSeq := p.nextSeq + 1 } := by
      unfold Pool.release
      rw [halloc2]
      simp only [if_true, hstate]
      congr 1
      · omega
      · rw [List.filter_append]
        rw [notAllocated_filter_id p u h2]
        simp [bne]
    refine ⟨?_, ?_, ?_, Nat.lt_succ_self s⟩
    · unfold Pool.release
      rw [halloc2]
      simp
    · rw [hrel]
    · rw [hrel]
      rw [allocate_confirmed_iff]
      refine ⟨h1, h2, h3, by simp [hseq]⟩
  · intro q v h
    unfold Pool.release
    rw [h]
    simp

/-- C8 witness: the round trip on a concrete pool of capacity 2, and
`NOT_FOUND` for a requester without an allocation. -/
theorem release_round_trip_witness :
    ((Pool.allocate ⟨2, 2, [], 0⟩ "u1").1 = Outcome.CONFIRMED 0 ∧
     (((Pool.allocate ⟨2, 2, [], 0⟩ "u1").2.release "u1").1 = Outcome.RELEASED ∧
      ((Pool.allocate ⟨2, 2, [], 0⟩ "u1").2.release "u1").2.remaining = 2 ∧
      (((Pool.allocate ⟨2, 2, [], 0⟩ "u1").2.release "u1").2.allocate "u1").1
        = Outcome.CONFIRMED (0 + 1) ∧
      0 < 0 + 1)) ∧
    (Pool.isAllocated ⟨2, 2, [], 0⟩ "zz" = false ∧
     (Pool.release ⟨2, 2, [], 0⟩ "zz").1 = Outcome.NOT_FOUND) :=
  ⟨⟨by decide, release_round_trip.1 ⟨2, 2, [], 0⟩ "u1" 0 (by decide)⟩,
   ⟨by decide, release_round_trip.2 ⟨2, 2, [], 0⟩ "zz" (by decide)⟩⟩

lemma device_off_isOn (d : Device) : (Device.off d).isOn = false := by
  rcases d with ⟨b⟩
  cases b <;> simp [Device.off]

lemma device_on_isOn (d : Device) : (Device.on d).isOn = true := by
  rcases d with ⟨b⟩
  cases b <;> simp [Device.on]

/-- C10: after every `Thermostat.update`, the heater and the cooler are
never both on: each branch of `update` switches one device off when it
switches the other on (or switches both off). -/
theorem heater_cooler_never_both_on (t : Thermostat) (c : ℚ) :
    ¬((t.update c).heater.isOn = true ∧ (t.update c).cooler.isOn = true) := by
  rcases t with ⟨mn, mx, hy, cur, tg, hd, cd⟩
  by_cases h1 : c < tg - hy
  · simp [Thermostat.update, h1, device_off_isOn]
  · by_cases h2 : c > tg + hy
    · simp [Thermostat.update, h1, h2, device_off_isOn]
    · simp [Thermostat.update, h1, h2, device_off_isOn]
